import Mathlib

/-!
Shallow embedding of the batched text renderer in
`src/text_renderer.rs` of the `gfx_debug_draw` crate.

Conventions of the embedding:
* Rust `f32` values are modelled as exact rationals (`Rat`): the renderer
  only adds, subtracts, multiplies and divides, and every claim is about
  the algebraic form of those expressions, not about rounding.
* Rust `u32` casts (`as u32`) are modelled by reduction modulo `2 ^ 32`.
* The growable GPU buffer and the bitmap-font table live outside
  `src/` (in `utils.rs` and the `bitmap_font` crate); they are modelled
  from the specification where noted.
* GPU side effects (buffer uploads, draw submission) are modelled by
  explicit state: a `GpuBuffer` records its capacity, an allocation
  generation and its logical contents, and `render` returns the list of
  draw calls it submits.
-/

namespace GfxDebugDraw

/-- The modulus `2 ^ 32` of a Rust `as u32` cast. -/
def U32_MOD : Nat := 4294967296

/-- Truncating cast from `usize` to `u32` (`n as u32` in Rust). -/
def toU32 (n : Nat) : Nat := n % U32_MOD

/-- Modelled from the spec: one entry of the font descriptor coming from
the external `bitmap_font` crate (absent from `src/`): atlas-space
rectangle `{x, y, width, height}`, origin offset `{xoffset, yoffset}`
and horizontal advance `xadvance`, all integers. -/
structure BitmapCharacter where
  x : Int
  y : Int
  width : Int
  height : Int
  xoffset : Int
  yoffset : Int
  xadvance : Int
  deriving Repr, DecidableEq

/-- Modelled from the spec: the placeholder glyph used for characters
missing from the font table (`Default::default()` in the source); every
field is zero. -/
def BitmapCharacter.placeholder : BitmapCharacter :=
  ⟨0, 0, 0, 0, 0, 0, 0⟩

/-- Modelled from the spec: the font catalog from the external
`bitmap_font` crate (absent from `src/`): atlas dimensions plus a
character → glyph mapping with unique keys, here an association list. -/
structure BitmapFont where
  scale_w : Int
  scale_h : Int
  characters : List (Char × BitmapCharacter)
  deriving Repr, DecidableEq

/-- Source expression `self.bitmap_font.characters.get(&character)`:
first (only, keys being unique) entry for the character, if any. -/
def BitmapFont.get (font : BitmapFont) (c : Char) : Option BitmapCharacter :=
  (font.characters.find? (fun p => p.1 = c)).map Prod.snd

/-- The `match … { Some(c) => c, None => &default_character }` of
`draw_text`: total glyph lookup with the zero placeholder as fallback. -/
def BitmapFont.lookup (font : BitmapFont) (c : Char) : BitmapCharacter :=
  match font.get c with
  | some bc => bc
  | none => BitmapCharacter.placeholder

/-- The `Vertex` struct of `text_renderer.rs`; `[f32; n]` fields become
tuples of rationals, `screen_relative: i32` an integer. -/
structure Vertex where
  position : Rat × Rat
  texcoords : Rat × Rat
  world_position : Rat × Rat × Rat
  screen_relative : Int
  color : Rat × Rat × Rat × Rat
  deriving Repr, DecidableEq

/-- A 4-component float vector (GLSL `vec4`). -/
abbrev Vec4 : Type := Rat × Rat × Rat × Rat

/-- A 4×4 float matrix (`[[f32; 4]; 4]`), stored as four rows. -/
structure Mat4 where
  r0 : Vec4
  r1 : Vec4
  r2 : Vec4
  r3 : Vec4
  deriving Repr, DecidableEq

/-- Dot product of two 4-vectors. -/
def dot4 (a b : Vec4) : Rat :=
  a.1 * b.1 + a.2.1 * b.2.1 + a.2.2.1 * b.2.2.1 + a.2.2.2 * b.2.2.2

/-- Matrix–vector product `m * v` (GLSL `mat4 * vec4`). -/
def Mat4.mulVec (m : Mat4) (v : Vec4) : Vec4 :=
  (dot4 m.r0 v, dot4 m.r1 v, dot4 m.r2 v, dot4 m.r3 v)

/-- Constant `MAT4_ID` from `utils.rs`: the identity matrix. -/
def MAT4_ID : Mat4 :=
  ⟨(1, 0, 0, 0), (0, 1, 0, 0), (0, 0, 1, 0), (0, 0, 0, 1)⟩

/-- One step of the character loop of `draw_text`
(`src/text_renderer.rs:151-238`): the four quad vertices pushed for one
glyph, in source order (top left, bottom left, bottom right, top right). -/
def quadVertices (scale_w scale_h : Rat) (x y : Int)
    (world_position : Rat × Rat × Rat) (screen_relative : Int)
    (color : Rat × Rat × Rat × Rat) (bc : BitmapCharacter) : List Vertex :=
  let x_offset : Rat := ((bc.xoffset + x : Int) : Rat)
  let y_offset : Rat := ((bc.yoffset + y : Int) : Rat)
  [ { position := (x_offset, y_offset),
      color := color,
      texcoords := ((bc.x : Rat) / scale_w, (bc.y : Rat) / scale_h),
      world_position := world_position,
      screen_relative := screen_relative },
    { position := (x_offset, (bc.height : Rat) + y_offset),
      color := color,
      texcoords := ((bc.x : Rat) / scale_w, ((bc.y + bc.height : Int) : Rat) / scale_h),
      world_position := world_position,
      screen_relative := screen_relative },
    { position := ((bc.width : Rat) + x_offset, (bc.height : Rat) + y_offset),
      color := color,
      texcoords := (((bc.x + bc.width : Int) : Rat) / scale_w,
                    ((bc.y + bc.height : Int) : Rat) / scale_h),
      world_position := world_position,
      screen_relative := screen_relative },
    { position := ((bc.width : Rat) + x_offset, y_offset),
      color := color,
      texcoords := (((bc.x + bc.width : Int) : Rat) / scale_w, (bc.y : Rat) / scale_h),
      world_position := world_position,
      screen_relative := screen_relative } ]

/-- The six `index_data.push((index + k) as u32)` calls for one glyph:
two CCW triangles over the quad whose base index is `index`. -/
def quadIndices (index : Nat) : List Nat :=
  [ toU32 (index + 0), toU32 (index + 1), toU32 (index + 3),
    toU32 (index + 3), toU32 (index + 1), toU32 (index + 2) ]

/-- The `for character in text.chars()` loop of `draw_text`: carries the
cursor x (`i32`), appends to `vertex_data` and `index_data`; the cursor
y is constant for the whole loop. Returns the final cursor x and the two
lists. -/
def drawTextLoop (font : BitmapFont) (world_position : Rat × Rat × Rat)
    (screen_relative : Int) (color : Rat × Rat × Rat × Rat) (y : Int) :
    List Char → Int → List Vertex → List Nat → Int × List Vertex × List Nat
  | [], x, vd, ixs => (x, vd, ixs)
  | c :: rest, x, vd, ixs =>
      let bc := font.lookup c
      let index := vd.length
      drawTextLoop font world_position screen_relative color y rest
        (x + bc.xadvance)
        (vd ++ quadVertices ((font.scale_w : Rat)) ((font.scale_h : Rat)) x y
          world_position screen_relative color bc)
        (ixs ++ quadIndices index)

/-- A GPU-resident growable buffer handle together with its state: the
allocation generation distinguishes handles across reallocations,
`capacity` counts elements, `contents` is what has been uploaded. -/
structure GpuBuffer (α : Type) where
  generation : Nat
  capacity : Nat
  contents : List α
  deriving Repr, DecidableEq

/-- Modelled from the spec: `grow_buffer` from `utils.rs` (absent from
`src/`), §4.3: allocate a new, larger buffer of capacity at least the
required length, copy the existing contents, release the old buffer. -/
def grow_buffer (buf : GpuBuffer α) (required : Nat) : GpuBuffer α :=
  { generation := buf.generation + 1,
    capacity := max required (2 * buf.capacity),
    contents := buf.contents }

/-- Source call `factory.update_buffer(&buf, data, 0)`: write `data` into the buffer
starting at offset 0, overwriting; bytes past the write keep their old
values. -/
def GpuBuffer.write (buf : GpuBuffer α) (data : List α) : GpuBuffer α :=
  { buf with contents := data ++ buf.contents.drop data.length }

/-- The `TextShaderParams` uniform block (texture handle as a bare id;
the sampler is irrelevant to every claim). -/
structure TextShaderParams where
  u_model_view_proj : Mat4
  u_screen_size : Rat × Rat
  u_tex_font : Nat
  deriving Repr, DecidableEq

/-- The `gfx::PrimitiveType` enumeration (the variants used by this crate). -/
inductive PrimitiveType where
  | Point
  | Line
  | TriangleList
  deriving Repr, DecidableEq

/-- The observable content of the one `graphics.renderer.draw` call that
`render` submits: the bound state relevant to the claims. -/
structure DrawCall where
  mvp : Mat4
  mesh_vertex_count : Nat
  slice_start : Nat
  slice_end : Nat
  prim_type : PrimitiveType
  index32 : Bool
  index_buffer_generation : Nat
  index_base : Nat
  deriving Repr, DecidableEq

/-- The error type returned by `factory.link_program`
(`gfx::ProgramError`), abstracted to an opaque code. -/
structure ProgramError where
  code : Nat
  deriving Repr, DecidableEq

/-- The `TextRenderer` struct: shader program handle, font, the pending
in-memory batch, the two GPU buffers and the uniform block. -/
structure TextRenderer where
  program : Nat
  bitmap_font : BitmapFont
  vertex_data : List Vertex
  index_data : List Nat
  vertex_buffer : GpuBuffer Vertex
  index_buffer : GpuBuffer Nat
  params : TextShaderParams
  deriving Repr, DecidableEq

namespace TextRenderer

/-- Constructor `TextRenderer::new`: the result of `factory.link_program` on the
chosen shader sources is passed in as `link_result` (the factory is
external); a link error aborts construction and is propagated, success
yields the renderer with empty batch, buffers of the initial capacity,
identity projection and the frame size as screen size. -/
def new (link_result : Except ProgramError Nat) (frame_size : Nat × Nat)
    (initial_buffer_size : Nat) (bitmap_font : BitmapFont)
    (font_texture : Nat) : Except ProgramError TextRenderer :=
  match link_result with
  | .error e => .error e
  | .ok program =>
      .ok { program := program,
            bitmap_font := bitmap_font,
            vertex_data := [],
            index_data := [],
            vertex_buffer := ⟨0, initial_buffer_size, []⟩,
            index_buffer := ⟨0, initial_buffer_size, []⟩,
            params := { u_model_view_proj := MAT4_ID,
                        u_screen_size := ((frame_size.1 : Rat), (frame_size.2 : Rat)),
                        u_tex_font := font_texture } }

/-- Operation `TextRenderer::resize`: store the new window size, as floats, in the
screen-size uniform. -/
def resize (r : TextRenderer) (width height : Nat) : TextRenderer :=
  { r with params := { r.params with
      u_screen_size := ((width : Rat), (height : Rat)) } }

/-- Operation `TextRenderer::draw_text` (private): run the character loop from the
given screen position and append the produced quads to the batch. -/
def draw_text (r : TextRenderer) (text : List Char)
    (screen_position : Int × Int) (world_position : Rat × Rat × Rat)
    (screen_relative : Int) (color : Rat × Rat × Rat × Rat) : TextRenderer :=
  let res := drawTextLoop r.bitmap_font world_position screen_relative color
    screen_position.2 text screen_position.1 r.vertex_data r.index_data
  { r with vertex_data := res.2.1, index_data := res.2.2 }

/-- Operation `draw_text_at_position`: world-anchored text; screen position
`[0, 0]`, `screen_relative = 0`. -/
def draw_text_at_position (r : TextRenderer) (text : List Char)
    (world_position : Rat × Rat × Rat) (color : Rat × Rat × Rat × Rat) :
    TextRenderer :=
  r.draw_text text (0, 0) world_position 0 color

/-- Operation `draw_text_on_screen`: screen-anchored text; world position
`[0.0, 0.0, 0.0]`, `screen_relative = 1`. -/
def draw_text_on_screen (r : TextRenderer) (text : List Char)
    (screen_position : Int × Int) (color : Rat × Rat × Rat × Rat) :
    TextRenderer :=
  r.draw_text text screen_position (0, 0, 0) 1 color

/-- Operation `TextRenderer::update`: grow each buffer when its pending list no
longer fits, then upload both full lists at offset 0. -/
def update (r : TextRenderer) : TextRenderer :=
  let vb := if r.vertex_data.length > r.vertex_buffer.capacity
    then grow_buffer r.vertex_buffer r.vertex_data.length
    else r.vertex_buffer
  let ib := if r.index_data.length > r.index_buffer.capacity
    then grow_buffer r.index_buffer r.index_data.length
    else r.index_buffer
  { r with
      vertex_buffer := vb.write r.vertex_data,
      index_buffer := ib.write r.index_data }

/-- Operation `TextRenderer::render`: set the projection uniform, submit one draw
call over indices `[0, index_data.len() as u32)` as a 32-bit-indexed
triangle list at buffer offset 0, then clear both lists. Returns the new
state and the submitted draw calls. -/
def render (r : TextRenderer) (projection : Mat4) :
    TextRenderer × List DrawCall :=
  let params := { r.params with u_model_view_proj := projection }
  let call : DrawCall :=
    { mvp := params.u_model_view_proj,
      mesh_vertex_count := toU32 r.vertex_data.length,
      slice_start := 0,
      slice_end := toU32 r.index_data.length,
      prim_type := PrimitiveType.TriangleList,
      index32 := true,
      index_buffer_generation := r.index_buffer.generation,
      index_base := 0 }
  ({ r with params := params, vertex_data := [], index_data := [] }, [call])

end TextRenderer

/-- The `main` of `VERTEX_SRC` (both GLSL variants compute identically),
over exact rationals: `screen_offset` from the pixel position,
`world_offset` from the MVP-transformed world position (note the divide
by the z component), dropped when `screen_relative != 0`, summed into a
depth-0 output position. The `vec4 world_position` attribute is fed from
a 3-component array, so its w component is 1. -/
def vertexShaderMain (u_screen_size : Rat × Rat) (u_model_view_proj : Mat4)
    (v : Vertex) : Vec4 :=
  let screen_offset : Rat × Rat :=
    (2 * v.position.1 / u_screen_size.1 - 1,
     1 - 2 * v.position.2 / u_screen_size.2)
  let screen_position : Vec4 :=
    u_model_view_proj.mulVec
      (v.world_position.1, v.world_position.2.1, v.world_position.2.2, 1)
  let world_offset : Rat × Rat :=
    (screen_position.1 / screen_position.2.2.1 + 1,
     screen_position.2.1 / screen_position.2.2.1 - 1)
  let world_offset :=
    if v.screen_relative = 0 then world_offset else ((0 : Rat), (0 : Rat))
  (world_offset.1 + screen_offset.1, world_offset.2 + screen_offset.2, 0, 1)

/-- The vertex stage exactly as §4.4 of the specification words it, for
comparison with `vertexShaderMain` (which is read off the GLSL source):
`screen_offset` maps the pixel position to device coordinates with Y
flipped; `clip = MVP · world_position`;
`world_offset = (clip.x/clip.z + 1, clip.y/clip.z − 1)` (divide by z);
if `screen_relative` is nonzero, `world_offset` is forced to `(0, 0)`;
the final position is `world_offset + screen_offset` at depth 0. -/
def vertexStageSpec (screen_size : Rat × Rat) (mvp : Mat4) (v : Vertex) :
    Vec4 :=
  let screen_offset : Rat × Rat :=
    (2 * v.position.1 / screen_size.1 - 1,
     1 - 2 * v.position.2 / screen_size.2)
  let clip : Vec4 :=
    mvp.mulVec (v.world_position.1, v.world_position.2.1, v.world_position.2.2, 1)
  let world_offset : Rat × Rat :=
    if v.screen_relative ≠ 0 then (0, 0)
    else (clip.1 / clip.2.2.1 + 1, clip.2.1 / clip.2.2.1 - 1)
  (world_offset.1 + screen_offset.1, world_offset.2 + screen_offset.2, 0, 1)

/-- The batch invariant of claim C10: six indices per four vertices, and
every stored index in range of the vertex list. -/
def batchInv (r : TextRenderer) : Prop :=
  2 * r.index_data.length = 3 * r.vertex_data.length ∧
  ∀ i ∈ r.index_data, i < r.vertex_data.length

instance (r : TextRenderer) : Decidable (batchInv r) := by
  unfold batchInv; infer_instance

/-- The single-glyph font table of the spec's scenarios:
`{'A': {x:0, y:0, w:10, h:10, xoffset:0, yoffset:0, xadvance:12}}` on a
256×256 atlas. -/
def testFont : BitmapFont :=
  ⟨256, 256, [('A', ⟨0, 0, 10, 10, 0, 0, 12⟩)]⟩

/-- An opaque red test color. -/
def testColor : Rat × Rat × Rat × Rat := (1, 0, 0, 1)

/-- A freshly constructed renderer over `testFont`: empty batch, buffer
capacity 64, identity projection, 640×480 frame. -/
def mkRenderer0 : TextRenderer :=
  ⟨0, testFont, [], [], ⟨0, 64, []⟩, ⟨0, 64, []⟩, ⟨MAT4_ID, (640, 480), 0⟩⟩

/-- A renderer whose buffers start with capacity 2, so that a single
glyph (4 vertices, 6 indices) forces both buffers to grow. -/
def mkRendererSmall : TextRenderer :=
  ⟨0, testFont, [], [], ⟨0, 2, []⟩, ⟨0, 2, []⟩, ⟨MAT4_ID, (640, 480), 0⟩⟩

/-- A projection matrix different from the identity, for the
projection-invariance witness. -/
def testMat : Mat4 :=
  ⟨(2, 0, 0, 3), (0, 5, 0, 0), (0, 0, 7, 0), (0, 0, 0, 1)⟩

/-- State `mkRenderer0` after one single-glyph screen call (first quad). -/
def rOne : TextRenderer := mkRenderer0.draw_text_on_screen ['A'] (0, 0) testColor

/-- State `rOne` after a second identical call (second quad, base index 4). -/
def rTwo : TextRenderer := rOne.draw_text_on_screen ['A'] (0, 0) testColor

/-- State `mkRendererSmall` after one single-glyph call: 4 pending vertices
and 6 pending indices against buffers of capacity 2. -/
def rSmall1 : TextRenderer :=
  mkRendererSmall.draw_text_on_screen ['A'] (0, 0) testColor

/-- A string of 2^30 copies of `'A'`: one `draw_text` call on it pushes
exactly 2^32 vertices. -/
def bigText : List Char := List.replicate 1073741824 'A'

/-- The batch after drawing `bigText` once: 2^32 pending vertices and
6·2^30 pending indices. -/
def rBig : TextRenderer := mkRenderer0.draw_text_on_screen bigText (0, 0) testColor

/-- State `rBig` after one further single-glyph call, whose quad starts at
base vertex index 2^32. -/
def rBig2 : TextRenderer := rBig.draw_text_on_screen ['A'] (0, 0) testColor

/-! ## Helper lemmas about the character loop -/

theorem drawTextLoop_nil (f : BitmapFont) (wp : Rat × Rat × Rat) (sr : Int)
    (col : Rat × Rat × Rat × Rat) (y x : Int) (vd : List Vertex)
    (ixs : List Nat) :
    drawTextLoop f wp sr col y [] x vd ixs = (x, vd, ixs) := rfl

theorem drawTextLoop_cons (f : BitmapFont) (wp : Rat × Rat × Rat) (sr : Int)
    (col : Rat × Rat × Rat × Rat) (y : Int) (c : Char) (rest : List Char)
    (x : Int) (vd : List Vertex) (ixs : List Nat) :
    drawTextLoop f wp sr col y (c :: rest) x vd ixs =
      drawTextLoop f wp sr col y rest (x + (f.lookup c).xadvance)
        (vd ++ quadVertices ((f.scale_w : Rat)) ((f.scale_h : Rat)) x y wp sr col
          (f.lookup c))
        (ixs ++ quadIndices vd.length) := rfl

theorem quadVertices_length (sw sh : Rat) (x y : Int) (wp : Rat × Rat × Rat)
    (sr : Int) (col : Rat × Rat × Rat × Rat) (bc : BitmapCharacter) :
    (quadVertices sw sh x y wp sr col bc).length = 4 := rfl

theorem quadIndices_length (index : Nat) : (quadIndices index).length = 6 := rfl

theorem drawTextLoop_length (f : BitmapFont) (wp : Rat × Rat × Rat) (sr : Int)
    (col : Rat × Rat × Rat × Rat) (y : Int) :
    ∀ (cs : List Char) (x : Int) (vd : List Vertex) (ixs : List Nat),
      (drawTextLoop f wp sr col y cs x vd ixs).2.1.length
          = vd.length + 4 * cs.length ∧
      (drawTextLoop f wp sr col y cs x vd ixs).2.2.length
          = ixs.length + 6 * cs.length := by
  intro cs
  induction cs with
  | nil => intro x vd ixs; simp [drawTextLoop_nil]
  | cons c rest ih =>
      intro x vd ixs
      rw [drawTextLoop_cons]
      obtain ⟨h1, h2⟩ := ih (x + (f.lookup c).xadvance)
        (vd ++ quadVertices ((f.scale_w : Rat)) ((f.scale_h : Rat)) x y wp sr col
          (f.lookup c))
        (ixs ++ quadIndices vd.length)
      constructor
      · rw [h1]; simp [quadVertices_length]; ring
      · rw [h2]; simp [quadIndices_length]; ring

theorem drawTextLoop_vertex_append (f : BitmapFont) (wp : Rat × Rat × Rat)
    (sr : Int) (col : Rat × Rat × Rat × Rat) (y : Int) :
    ∀ (cs : List Char) (x : Int) (vd : List Vertex) (ixs : List Nat),
      (drawTextLoop f wp sr col y cs x vd ixs).2.1
        = vd ++ (drawTextLoop f wp sr col y cs x [] []).2.1 := by
  intro cs
  induction cs with
  | nil => intro x vd ixs; simp [drawTextLoop_nil]
  | cons c rest ih =>
      intro x vd ixs
      rw [drawTextLoop_cons, drawTextLoop_cons]
      rw [ih (x + (f.lookup c).xadvance)
        (vd ++ quadVertices ((f.scale_w : Rat)) ((f.scale_h : Rat)) x y wp sr col
          (f.lookup c)) (ixs ++ quadIndices vd.length)]
      rw [ih (x + (f.lookup c).xadvance)
        ([] ++ quadVertices ((f.scale_w : Rat)) ((f.scale_h : Rat)) x y wp sr col
          (f.lookup c)) ([] ++ quadIndices ([] : List Vertex).length)]
      simp

theorem quadVertices_screen_relative (sw sh : Rat) (x y : Int)
    (wp : Rat × Rat × Rat) (sr : Int) (col : Rat × Rat × Rat × Rat)
    (bc : BitmapCharacter) (v : Vertex)
    (hv : v ∈ quadVertices sw sh x y wp sr col bc) : v.screen_relative = sr := by
  simp only [quadVertices, List.mem_cons, List.mem_singleton] at hv
  rcases hv with h | h | h | h | h
  all_goals try (subst h; rfl)
  exact absurd h (List.not_mem_nil v)

theorem quadVertices_world_position (sw sh : Rat) (x y : Int)
    (wp : Rat × Rat × Rat) (sr : Int) (col : Rat × Rat × Rat × Rat)
    (bc : BitmapCharacter) (v : Vertex)
    (hv : v ∈ quadVertices sw sh x y wp sr col bc) : v.world_position = wp := by
  simp only [quadVertices, List.mem_cons, List.mem_singleton] at hv
  rcases hv with h | h | h | h | h
  all_goals try (subst h; rfl)
  exact absurd h (List.not_mem_nil v)

theorem drawTextLoop_mem_screen_relative (f : BitmapFont)
    (wp : Rat × Rat × Rat) (sr : Int) (col : Rat × Rat × Rat × Rat) (y : Int) :
    ∀ (cs : List Char) (x : Int) (vd : List Vertex) (ixs : List Nat)
      (v : Vertex), v ∈ (drawTextLoop f wp sr col y cs x vd ixs).2.1 →
      v ∈ vd ∨ (v.screen_relative = sr ∧ v.world_position = wp) := by
  intro cs
  induction cs with
  | nil => intro x vd ixs v hv; exact Or.inl (by simpa [drawTextLoop_nil] using hv)
  | cons c rest ih =>
      intro x vd ixs v hv
      rw [drawTextLoop_cons] at hv
      rcases ih _ _ _ v hv with h | h
      · rcases List.mem_append.mp h with h' | h'
        · exact Or.inl h'
        · exact Or.inr ⟨quadVertices_screen_relative _ _ _ _ _ _ _ _ _ h',
            quadVertices_world_position _ _ _ _ _ _ _ _ _ h'⟩
      · exact Or.inr h

theorem draw_text_data (r : TextRenderer) (text : List Char) (x y : Int)
    (wp : Rat × Rat × Rat) (sr : Int) (col : Rat × Rat × Rat × Rat) :
    (r.draw_text text (x, y) wp sr col).vertex_data
        = (drawTextLoop r.bitmap_font wp sr col y text x r.vertex_data
            r.index_data).2.1 ∧
    (r.draw_text text (x, y) wp sr col).index_data
        = (drawTextLoop r.bitmap_font wp sr col y text x r.vertex_data
            r.index_data).2.2 :=
  ⟨rfl, rfl⟩

theorem render_calls (r : TextRenderer) (proj : Mat4) :
    (r.render proj).2 =
      [{ mvp := proj,
         mesh_vertex_count := toU32 r.vertex_data.length,
         slice_start := 0,
         slice_end := toU32 r.index_data.length,
         prim_type := PrimitiveType.TriangleList,
         index32 := true,
         index_buffer_generation := r.index_buffer.generation,
         index_base := 0 }] := rfl

/-! ## Claim theorems -/

/-- C2: the embedded vertex stage computes
`screen_offset = (2·x/w − 1, 1 − 2·y/h)`, `clip = MVP · world_position`,
`world_offset = (clip.x/clip.z + 1, clip.y/clip.z − 1)` (a divide by the
clip-space z, not w), forces `world_offset` to `(0, 0)` exactly when
`screen_relative` is nonzero, and outputs
`(world_offset + screen_offset, 0, 1)` with depth 0 — for every vertex
and every uniform assignment. -/
theorem vertex_stage_matches_spec :
    ∀ (screen_size : Rat × Rat) (mvp : Mat4) (v : Vertex),
      vertexShaderMain screen_size mvp v = vertexStageSpec screen_size mvp v := by
  intro ss mvp v
  unfold vertexShaderMain vertexStageSpec
  by_cases h : v.screen_relative = 0 <;> simp [h]

/-- C9: `resize` rewrites the screen-size uniform to the given width and
height as floats and leaves every other component of the renderer state
untouched. -/
theorem resize_updates_screen_size_only :
    ∀ (r : TextRenderer) (w h : Nat),
      (r.resize w h).params.u_screen_size = ((w : Rat), (h : Rat)) ∧
      (r.resize w h).params.u_model_view_proj = r.params.u_model_view_proj ∧
      (r.resize w h).params.u_tex_font = r.params.u_tex_font ∧
      (r.resize w h).program = r.program ∧
      (r.resize w h).bitmap_font = r.bitmap_font ∧
      (r.resize w h).vertex_data = r.vertex_data ∧
      (r.resize w h).index_data = r.index_data ∧
      (r.resize w h).vertex_buffer = r.vertex_buffer ∧
      (r.resize w h).index_buffer = r.index_buffer := by
  intro r w h
  exact ⟨rfl, rfl, rfl, rfl, rfl, rfl, rfl, rfl, rfl⟩

/-- C3 (amended): `render(projection)` sets the model-view-projection
uniform to the supplied matrix, issues exactly one draw call, a
32-bit-indexed triangle list at buffer offset 0 over indices
`[0, pending_index_count mod 2^32)` — equal to
`[0, pending_index_count)` whenever fewer than 2^32 indices are pending
— and afterwards both in-memory lists are empty. -/
theorem render_single_draw_call :
    ∀ (r : TextRenderer) (proj : Mat4),
      (r.render proj).2 =
        [{ mvp := proj,
           mesh_vertex_count := toU32 r.vertex_data.length,
           slice_start := 0,
           slice_end := toU32 r.index_data.length,
           prim_type := PrimitiveType.TriangleList,
           index32 := true,
           index_buffer_generation := r.index_buffer.generation,
           index_base := 0 }] ∧
      (r.render proj).1.params.u_model_view_proj = proj ∧
      (r.render proj).1.vertex_data = [] ∧
      (r.render proj).1.index_data = [] ∧
      (r.index_data.length < 4294967296 →
        toU32 r.index_data.length = r.index_data.length) := by
  intro r proj
  exact ⟨rfl, rfl, rfl, rfl, fun h => Nat.mod_eq_of_lt h⟩

/-- C3 witness: on a renderer with an empty batch the pending index
count is below 2^32, so the slice end equals the pending index count. -/
theorem render_single_draw_call_witness :
    mkRenderer0.index_data.length < 4294967296 ∧
    toU32 mkRenderer0.index_data.length = mkRenderer0.index_data.length :=
  ⟨by decide,
    (render_single_draw_call mkRenderer0 MAT4_ID).2.2.2.2 (by decide)⟩

/-- C3 counterexample: after one `draw_text_on_screen` call on a string
of 2^30 characters there are 6·2^30 = 6442450944 pending indices, but
the single draw call issued by `render` ends at index
`6442450944 mod 2^32 = 2147483648`, so it does not cover
`[0, pending_index_count)`. -/
theorem render_slice_end_wraps :
    rBig.index_data.length = 6442450944 ∧
    (rBig.render MAT4_ID).2.map DrawCall.slice_end = [2147483648] ∧
    (2147483648 : Nat) ≠ 6442450944 := by
  have hbig : bigText.length = 1073741824 := by
    rw [bigText]; exact List.length_replicate _ _
  have hlen : rBig.index_data.length = 6442450944 := by
    have e1 : rBig = mkRenderer0.draw_text bigText (0, 0) (0, 0, 0) 1 testColor :=
      rfl
    have e2 := (draw_text_data mkRenderer0 bigText 0 0 (0, 0, 0) 1 testColor).2
    have h := (drawTextLoop_length mkRenderer0.bitmap_font (0, 0, 0) 1 testColor
      0 bigText 0 mkRenderer0.vertex_data mkRenderer0.index_data).2
    have e3 : mkRenderer0.index_data.length = 0 := rfl
    rw [e1, e2, h, e3, hbig]
  have hmod : toU32 6442450944 = 2147483648 := by norm_num [toU32, U32_MOD]
  refine ⟨hlen, ?_, by norm_num⟩
  rw [render_calls rBig MAT4_ID, List.map_singleton]
  show [toU32 rBig.index_data.length] = [2147483648]
  rw [hlen, hmod]

/-- C8: construction fails exactly when shader program linking fails, in
which case the link error is propagated and no renderer value is
produced; every other public operation is total — it yields a result
state (never an error) for all inputs. -/
theorem construction_error_iff_link_error :
    (∀ (e : ProgramError) (fs : Nat × Nat) (ibs : Nat) (font : BitmapFont)
       (tex : Nat),
       TextRenderer.new (.error e) fs ibs font tex = .error e) ∧
    (∀ (p : Nat) (fs : Nat × Nat) (ibs : Nat) (font : BitmapFont) (tex : Nat),
       ∃ r, TextRenderer.new (.ok p) fs ibs font tex = .ok r) ∧
    (∀ (link : Except ProgramError Nat) (fs : Nat × Nat) (ibs : Nat)
       (font : BitmapFont) (tex : Nat),
       (∃ r, TextRenderer.new link fs ibs font tex = .ok r) ↔
         ∃ p, link = .ok p) ∧
    (∀ (r : TextRenderer) (w h : Nat) (t : List Char) (sp : Int × Int)
       (wp : Rat × Rat × Rat) (col : Rat × Rat × Rat × Rat) (m : Mat4),
       ∃ r1 r2 r3 r4 r5 calls,
         r.resize w h = r1 ∧ r.draw_text_at_position t wp col = r2 ∧
         r.draw_text_on_screen t sp col = r3 ∧ r.update = r4 ∧
         r.render m = (r5, calls)) := by
  refine ⟨fun e fs ibs font tex => rfl, fun p fs ibs font tex => ⟨_, rfl⟩,
    ?_, fun r w h t sp wp col m => ⟨_, _, _, _, _, _, rfl, rfl, rfl, rfl, rfl⟩⟩
  intro link fs ibs font tex
  cases link with
  | error e => simp [TextRenderer.new]
  | ok p => simp [TextRenderer.new]

/-- C6: `update` grows the vertex buffer exactly when the pending vertex
count exceeds its capacity and the index buffer exactly when the pending
index count exceeds its capacity (otherwise the handle is unchanged),
and in all cases uploads the full pending lists at offset 0. -/
theorem update_buffer_management :
    ∀ r : TextRenderer,
      (r.vertex_data.length ≤ r.vertex_buffer.capacity →
        r.update.vertex_buffer.generation = r.vertex_buffer.generation ∧
        r.update.vertex_buffer.capacity = r.vertex_buffer.capacity) ∧
      (r.vertex_data.length > r.vertex_buffer.capacity →
        r.update.vertex_buffer.generation = r.vertex_buffer.generation + 1 ∧
        r.vertex_data.length ≤ r.update.vertex_buffer.capacity) ∧
      (r.index_data.length ≤ r.index_buffer.capacity →
        r.update.index_buffer.generation = r.index_buffer.generation ∧
        r.update.index_buffer.capacity = r.index_buffer.capacity) ∧
      (r.index_data.length > r.index_buffer.capacity →
        r.update.index_buffer.generation = r.index_buffer.generation + 1 ∧
        r.index_data.length ≤ r.update.index_buffer.capacity) ∧
      r.update.vertex_buffer.contents.take r.vertex_data.length
        = r.vertex_data ∧
      r.update.index_buffer.contents.take r.index_data.length
        = r.index_data := by
  intro r
  unfold TextRenderer.update
  by_cases hv : r.vertex_data.length > r.vertex_buffer.capacity <;>
    by_cases hi : r.index_data.length > r.index_buffer.capacity <;>
      simp [hv, hi, Nat.not_lt.mpr, grow_buffer, GpuBuffer.write,
        List.take_left, Nat.le_max_left, Nat.lt_irrefl]

/-- C6 witness: with buffers of capacity 2 and a single pending glyph
(4 vertices), `update` allocates a new vertex buffer of sufficient
capacity. -/
theorem update_buffer_management_witness :
    rSmall1.vertex_data.length > rSmall1.vertex_buffer.capacity ∧
    (rSmall1.update.vertex_buffer.generation
        = rSmall1.vertex_buffer.generation + 1 ∧
      rSmall1.vertex_data.length ≤ rSmall1.update.vertex_buffer.capacity) :=
  ⟨by decide, (update_buffer_management rSmall1).2.1 (by decide)⟩

/-- C5: glyph lookup is total — a stored glyph is returned as-is, a
missing character yields the all-zero placeholder, and a single-glyph
call on a missing character still appends 4 vertices and 6 indices (a
zero-area quad) while leaving the cursor where it was. -/
theorem glyph_lookup_total :
    (∀ (font : BitmapFont) (c : Char) (bc : BitmapCharacter),
       font.get c = some bc → font.lookup c = bc) ∧
    (∀ (font : BitmapFont) (c : Char),
       font.get c = none → font.lookup c = ⟨0, 0, 0, 0, 0, 0, 0⟩) ∧
    (∀ (font : BitmapFont) (wp : Rat × Rat × Rat) (sr : Int)
       (col : Rat × Rat × Rat × Rat) (x y : Int) (c : Char),
       font.get c = none → ∀ (vd : List Vertex) (ixs : List Nat),
         drawTextLoop font wp sr col y [c] x vd ixs
             = (x, vd ++ quadVertices ((font.scale_w : Rat)) ((font.scale_h : Rat))
                 x y wp sr col BitmapCharacter.placeholder,
                 ixs ++ quadIndices vd.length) ∧
         (drawTextLoop font wp sr col y [c] x vd ixs).2.1.length
             = vd.length + 4 ∧
         (drawTextLoop font wp sr col y [c] x vd ixs).2.2.length
             = ixs.length + 6) := by
  have hmiss : ∀ (font : BitmapFont) (c : Char), font.get c = none →
      font.lookup c = BitmapCharacter.placeholder := by
    intro font c h
    unfold BitmapFont.lookup
    rw [h]
  refine ⟨?_, ?_, ?_⟩
  · intro font c bc h
    unfold BitmapFont.lookup
    rw [h]
  · intro font c h
    exact hmiss font c h
  · intro font wp sr col x y c h vd ixs
    refine ⟨?_, ?_, ?_⟩
    · rw [drawTextLoop_cons, drawTextLoop_nil, hmiss font c h]
      simp [BitmapCharacter.placeholder]
    · rw [(drawTextLoop_length font wp sr col y [c] x vd ixs).1]
      simp
    · rw [(drawTextLoop_length font wp sr col y [c] x vd ixs).2]
      simp

/-- C5 witness: `'Z'` is absent from the one-glyph test font; lookup
returns the zero placeholder and the loop appends a zero-area quad
without moving the cursor from x = 5. -/
theorem glyph_lookup_total_witness :
    testFont.get 'Z' = none ∧
    testFont.lookup 'Z' = ⟨0, 0, 0, 0, 0, 0, 0⟩ ∧
    drawTextLoop testFont (0, 0, 0) 1 testColor 0 ['Z'] 5 [] []
      = (5, [] ++ quadVertices ((testFont.scale_w : Rat)) ((testFont.scale_h : Rat))
          5 0 (0, 0, 0) 1 testColor BitmapCharacter.placeholder,
          [] ++ quadIndices ([] : List Vertex).length) :=
  ⟨by decide, glyph_lookup_total.2.1 testFont 'Z' (by decide),
    (glyph_lookup_total.2.2 testFont (0, 0, 0) 1 testColor 5 0 'Z' (by decide)
      [] []).1⟩

/-- C4: per character at cursor `(x, y)` the four emitted vertices are,
in order, the top-left `(x + xoffset, y + yoffset)`, bottom-left,
bottom-right and top-right corners of a quad extending right by `width`
and down by `height`, with texture coordinates the matching corners of
the atlas rectangle normalized by `scale_w`/`scale_h`, all sharing the
call's color, world position and screen-relative flag; afterwards the
cursor advances by `xadvance` in x while y stays fixed for the whole
call. -/
theorem draw_text_quad_geometry :
    ∀ (font : BitmapFont) (wp : Rat × Rat × Rat) (sr : Int)
      (col : Rat × Rat × Rat × Rat) (y : Int),
      (∀ (x : Int) (bc : BitmapCharacter),
        quadVertices ((font.scale_w : Rat)) ((font.scale_h : Rat)) x y wp sr col bc =
          [ { position := (((x + bc.xoffset : Int) : Rat),
                           ((y + bc.yoffset : Int) : Rat)),
              texcoords := ((bc.x : Rat) / (font.scale_w : Rat),
                            (bc.y : Rat) / (font.scale_h : Rat)),
              world_position := wp, screen_relative := sr, color := col },
            { position := (((x + bc.xoffset : Int) : Rat),
                           ((y + bc.yoffset : Int) : Rat) + (bc.height : Rat)),
              texcoords := ((bc.x : Rat) / (font.scale_w : Rat),
                            ((bc.y : Rat) + (bc.height : Rat)) / (font.scale_h : Rat)),
              world_position := wp, screen_relative := sr, color := col },
            { position := (((x + bc.xoffset : Int) : Rat) + (bc.width : Rat),
                           ((y + bc.yoffset : Int) : Rat) + (bc.height : Rat)),
              texcoords := (((bc.x : Rat) + (bc.width : Rat)) / (font.scale_w : Rat),
                            ((bc.y : Rat) + (bc.height : Rat)) / (font.scale_h : Rat)),
              world_position := wp, screen_relative := sr, color := col },
            { position := (((x + bc.xoffset : Int) : Rat) + (bc.width : Rat),
                           ((y + bc.yoffset : Int) : Rat)),
              texcoords := (((bc.x : Rat) + (bc.width : Rat)) / (font.scale_w : Rat),
                            (bc.y : Rat) / (font.scale_h : Rat)),
              world_position := wp, screen_relative := sr, color := col } ]) ∧
      (∀ (c : Char) (rest : List Char) (x : Int) (vd : List Vertex)
         (ixs : List Nat),
        drawTextLoop font wp sr col y (c :: rest) x vd ixs
          = drawTextLoop font wp sr col y rest (x + (font.lookup c).xadvance)
              (vd ++ quadVertices ((font.scale_w : Rat)) ((font.scale_h : Rat)) x y
                wp sr col (font.lookup c))
              (ixs ++ quadIndices vd.length)) := by
  intro font wp sr col y
  refine ⟨?_, fun c rest x vd ixs => drawTextLoop_cons font wp sr col y c rest x vd ixs⟩
  intro x bc
  simp only [quadVertices, List.cons.injEq, Vertex.mk.injEq, Prod.mk.injEq,
    and_true, true_and]
  push_cast
  and_intros <;> ring

/-- C1 (amended): each draw-text call appends exactly 4 vertices and 6
indices per character, in string order; a character whose quad starts at
base vertex index `b` gets the indices `b+0, b+1, b+3, b+3, b+1, b+2`
reduced modulo 2^32 (equal to the plain sums whenever the resulting
batch has at most 2^32 vertices); calls accumulate within a frame, so a
second single-glyph call yields the indices `[4, 5, 7, 7, 5, 6]`. -/
theorem draw_text_batch_counts :
    (∀ (r : TextRenderer) (text : List Char) (wp : Rat × Rat × Rat)
       (col : Rat × Rat × Rat × Rat),
       (r.draw_text_at_position text wp col).vertex_data.length
           = r.vertex_data.length + 4 * text.length ∧
       (r.draw_text_at_position text wp col).index_data.length
           = r.index_data.length + 6 * text.length) ∧
    (∀ (r : TextRenderer) (text : List Char) (sp : Int × Int)
       (col : Rat × Rat × Rat × Rat),
       (r.draw_text_on_screen text sp col).vertex_data.length
           = r.vertex_data.length + 4 * text.length ∧
       (r.draw_text_on_screen text sp col).index_data.length
           = r.index_data.length + 6 * text.length) ∧
    (∀ (font : BitmapFont) (wp : Rat × Rat × Rat) (sr : Int)
       (col : Rat × Rat × Rat × Rat) (y : Int) (c : Char) (rest : List Char)
       (x : Int) (vd : List Vertex) (ixs : List Nat),
       drawTextLoop font wp sr col y (c :: rest) x vd ixs
         = drawTextLoop font wp sr col y rest (x + (font.lookup c).xadvance)
             (vd ++ quadVertices ((font.scale_w : Rat)) ((font.scale_h : Rat)) x y
               wp sr col (font.lookup c))
             (ixs ++ [toU32 (vd.length + 0), toU32 (vd.length + 1),
               toU32 (vd.length + 3), toU32 (vd.length + 3),
               toU32 (vd.length + 1), toU32 (vd.length + 2)])) ∧
    (rTwo.vertex_data.length = 8 ∧ rTwo.index_data.length = 12 ∧
      rTwo.index_data = [0, 1, 3, 3, 1, 2, 4, 5, 7, 7, 5, 6]) := by
  refine ⟨?_, ?_, ?_, by decide, by decide, by decide⟩
  · intro r text wp col
    have e := draw_text_data r text 0 0 wp 0 col
    have h := drawTextLoop_length r.bitmap_font wp 0 col 0 text 0 r.vertex_data
      r.index_data
    exact ⟨by rw [show r.draw_text_at_position text wp col
        = r.draw_text text (0, 0) wp 0 col from rfl, e.1, h.1],
      by rw [show r.draw_text_at_position text wp col
        = r.draw_text text (0, 0) wp 0 col from rfl, e.2, h.2]⟩
  · intro r text sp col
    obtain ⟨sx, sy⟩ := sp
    have e := draw_text_data r text sx sy (0, 0, 0) 1 col
    have h := drawTextLoop_length r.bitmap_font (0, 0, 0) 1 col sy text sx
      r.vertex_data r.index_data
    exact ⟨by rw [show r.draw_text_on_screen text (sx, sy) col
        = r.draw_text text (sx, sy) (0, 0, 0) 1 col from rfl, e.1, h.1],
      by rw [show r.draw_text_on_screen text (sx, sy) col
        = r.draw_text text (sx, sy) (0, 0, 0) 1 col from rfl, e.2, h.2]⟩
  · intro font wp sr col y c rest x vd ixs
    exact drawTextLoop_cons font wp sr col y c rest x vd ixs

/-- C1 counterexample: one call on a 2^30-character string leaves
2^32 vertices in the batch; the next single-glyph call then stores the
indices `[0, 1, 3, 3, 1, 2]` — the base-plus-offset values wrapped
modulo 2^32 — not the plain sums `4294967296, …` that the claim
prescribes. -/
theorem second_call_index_base_wraps :
    rBig.vertex_data.length = 4294967296 ∧
    rBig2.index_data = rBig.index_data ++ [0, 1, 3, 3, 1, 2] ∧
    rBig2.index_data ≠ rBig.index_data ++
      [4294967296, 4294967297, 4294967299, 4294967299, 4294967297, 4294967298] := by
  have hbig : bigText.length = 1073741824 := by
    rw [bigText]; exact List.length_replicate _ _
  have hv : rBig.vertex_data.length = 4294967296 := by
    have e1 : rBig = mkRenderer0.draw_text bigText (0, 0) (0, 0, 0) 1 testColor :=
      rfl
    have e2 := (draw_text_data mkRenderer0 bigText 0 0 (0, 0, 0) 1 testColor).1
    have h := (drawTextLoop_length mkRenderer0.bitmap_font (0, 0, 0) 1 testColor
      0 bigText 0 mkRenderer0.vertex_data mkRenderer0.index_data).1
    have e3 : mkRenderer0.vertex_data.length = 0 := rfl
    rw [e1, e2, h, e3, hbig]
  have hix : rBig2.index_data = rBig.index_data ++ [0, 1, 3, 3, 1, 2] := by
    have e1 : rBig2 = rBig.draw_text ['A'] (0, 0) (0, 0, 0) 1 testColor := rfl
    have e2 := (draw_text_data rBig ['A'] 0 0 (0, 0, 0) 1 testColor).2
    rw [e1, e2, drawTextLoop_cons, drawTextLoop_nil]
    rw [show (quadIndices rBig.vertex_data.length) = [0, 1, 3, 3, 1, 2] by
      rw [show quadIndices rBig.vertex_data.length
          = quadIndices 4294967296 from by rw [hv]]
      decide]
  refine ⟨hv, hix, ?_⟩
  rw [hix]
  intro hc
  have h3 := List.append_cancel_left hc
  exact absurd h3 (by decide)

/-- C7: a `draw_text_on_screen` call appends a vertex list that is a
function of the font, text, screen position and color alone, and the
vertex stage maps each of those vertices to the same output position
under any two projection matrices — the screen-only formula in the
screen size and pixel position. Hence the rendered output is invariant
under the projection matrix and under world positions. -/
theorem screen_text_projection_invariant :
    ∀ (r : TextRenderer) (text : List Char) (sp : Int × Int)
      (col : Rat × Rat × Rat × Rat) (m1 m2 : Mat4),
      (r.draw_text_on_screen text sp col).vertex_data
        = r.vertex_data ++
          (drawTextLoop r.bitmap_font (0, 0, 0) 1 col sp.2 text sp.1 [] []).2.1 ∧
      ∀ v ∈ (drawTextLoop r.bitmap_font (0, 0, 0) 1 col sp.2 text sp.1 [] []).2.1,
        vertexShaderMain r.params.u_screen_size m1 v
          = vertexShaderMain r.params.u_screen_size m2 v ∧
        vertexShaderMain r.params.u_screen_size m1 v
          = (2 * v.position.1 / r.params.u_screen_size.1 - 1,
             1 - 2 * v.position.2 / r.params.u_screen_size.2, 0, 1) := by
  intro r text sp col m1 m2
  obtain ⟨sx, sy⟩ := sp
  constructor
  · have e : r.draw_text_on_screen text (sx, sy) col
        = r.draw_text text (sx, sy) (0, 0, 0) 1 col := rfl
    rw [e, (draw_text_data r text sx sy (0, 0, 0) 1 col).1,
      drawTextLoop_vertex_append r.bitmap_font (0, 0, 0) 1 col sy text sx
        r.vertex_data r.index_data]
  · intro v hv
    have hsr : v.screen_relative = 1 := by
      rcases drawTextLoop_mem_screen_relative r.bitmap_font (0, 0, 0) 1 col sy
        text sx [] [] v hv with h | h
      · exact absurd h (List.not_mem_nil v)
      · exact h.1
    constructor <;> simp [vertexShaderMain, hsr]

/-- C7 witness: for the concrete single-glyph screen call, the top-left
vertex of the quad renders identically under the identity projection and
`testMat`. -/
theorem screen_text_projection_invariant_witness :
    ({ position := (0, 0), texcoords := (0, 0), world_position := (0, 0, 0),
       screen_relative := 1, color := testColor } : Vertex) ∈
      (drawTextLoop mkRenderer0.bitmap_font (0, 0, 0) 1 testColor
        (0 : Int) ['A'] (0 : Int) [] []).2.1 ∧
    vertexShaderMain mkRenderer0.params.u_screen_size MAT4_ID
        { position := (0, 0), texcoords := (0, 0), world_position := (0, 0, 0),
          screen_relative := 1, color := testColor }
      = vertexShaderMain mkRenderer0.params.u_screen_size testMat
        { position := (0, 0), texcoords := (0, 0), world_position := (0, 0, 0),
          screen_relative := 1, color := testColor } :=
  ⟨by norm_num [drawTextLoop, quadVertices, BitmapFont.lookup, BitmapFont.get,
      testFont, mkRenderer0, testColor],
    ((screen_text_projection_invariant mkRenderer0 ['A'] (0, 0) testColor
        MAT4_ID testMat).2 _
      (by norm_num [drawTextLoop, quadVertices, BitmapFont.lookup,
        BitmapFont.get, testFont, mkRenderer0, testColor])).1⟩

/-! ## The batch invariant (C10) -/

theorem quadIndices_lt (n : Nat) : ∀ i ∈ quadIndices n, i < n + 4 := by
  intro i hi
  simp only [quadIndices, toU32, List.mem_cons, List.mem_singleton] at hi
  have hle : ∀ k : Nat, (n + k) % U32_MOD ≤ n + k := fun k => Nat.mod_le _ _
  rcases hi with h | h | h | h | h | h | h
  all_goals first
    | (subst h
       calc _ ≤ _ := hle _
         _ < n + 4 := by omega)
    | exact absurd h (List.not_mem_nil i)

theorem drawTextLoop_inv (f : BitmapFont) (wp : Rat × Rat × Rat) (sr : Int)
    (col : Rat × Rat × Rat × Rat) (y : Int) :
    ∀ (cs : List Char) (x : Int) (vd : List Vertex) (ixs : List Nat),
      2 * ixs.length = 3 * vd.length → (∀ i ∈ ixs, i < vd.length) →
      2 * (drawTextLoop f wp sr col y cs x vd ixs).2.2.length
          = 3 * (drawTextLoop f wp sr col y cs x vd ixs).2.1.length ∧
      ∀ i ∈ (drawTextLoop f wp sr col y cs x vd ixs).2.2,
        i < (drawTextLoop f wp sr col y cs x vd ixs).2.1.length := by
  intro cs
  induction cs with
  | nil => intro x vd ixs h1 h2; rw [drawTextLoop_nil]; exact ⟨h1, h2⟩
  | cons c rest ih =>
      intro x vd ixs h1 h2
      rw [drawTextLoop_cons]
      apply ih
      · simp only [List.length_append, quadVertices_length, quadIndices_length]
        omega
      · intro i hi
        simp only [List.length_append, quadVertices_length]
        rcases List.mem_append.mp hi with h | h
        · exact lt_of_lt_of_le (h2 i h) (by omega)
        · exact quadIndices_lt vd.length i h

/-- C10: starting from the empty batch produced by construction, every
public operation preserves the batch invariant — the index list is
exactly 3/2 the vertex list in length and every stored index is in range
of the vertex list. -/
theorem batch_invariant_preserved :
    (∀ (link : Except ProgramError Nat) (fs : Nat × Nat) (ibs : Nat)
       (font : BitmapFont) (tex : Nat) (r : TextRenderer),
       TextRenderer.new link fs ibs font tex = .ok r → batchInv r) ∧
    (∀ (r : TextRenderer) (w h : Nat), batchInv r → batchInv (r.resize w h)) ∧
    (∀ (r : TextRenderer) (text : List Char) (wp : Rat × Rat × Rat)
       (col : Rat × Rat × Rat × Rat), batchInv r →
       batchInv (r.draw_text_at_position text wp col)) ∧
    (∀ (r : TextRenderer) (text : List Char) (sp : Int × Int)
       (col : Rat × Rat × Rat × Rat), batchInv r →
       batchInv (r.draw_text_on_screen text sp col)) ∧
    (∀ r : TextRenderer, batchInv r → batchInv r.update) ∧
    (∀ (r : TextRenderer) (m : Mat4), batchInv r → batchInv (r.render m).1) := by
  have hdraw : ∀ (r : TextRenderer) (text : List Char) (sx sy : Int)
      (wp : Rat × Rat × Rat) (sr : Int) (col : Rat × Rat × Rat × Rat),
      batchInv r → batchInv (r.draw_text text (sx, sy) wp sr col) := by
    intro r text sx sy wp sr col h
    obtain ⟨h1, h2⟩ := h
    obtain ⟨e1, e2⟩ := draw_text_data r text sx sy wp sr col
    obtain ⟨g1, g2⟩ := drawTextLoop_inv r.bitmap_font wp sr col sy text sx
      r.vertex_data r.index_data h1 h2
    exact ⟨by rw [e1, e2]; exact g1, by rw [e1, e2]; exact g2⟩
  refine ⟨?_, ?_, ?_, ?_, ?_, ?_⟩
  · intro link fs ibs font tex r h
    cases link with
    | error e => exact absurd h (by simp [TextRenderer.new])
    | ok p =>
        have h2 : (Except.ok (⟨p, font, [], [], ⟨0, ibs, []⟩, ⟨0, ibs, []⟩,
            ⟨MAT4_ID, ((fs.1 : Rat), (fs.2 : Rat)), tex⟩⟩ : TextRenderer)
              : Except ProgramError TextRenderer) = Except.ok r := h
        injection h2 with h3
        subst h3
        exact ⟨rfl, fun i hi => absurd hi (List.not_mem_nil i)⟩
  · intro r w h hb; exact hb
  · intro r text wp col hb; exact hdraw r text 0 0 wp 0 col hb
  · intro r text sp col hb
    obtain ⟨sx, sy⟩ := sp
    exact hdraw r text sx sy (0, 0, 0) 1 col hb
  · intro r hb; exact hb
  · intro r m hb
    exact ⟨rfl, by intro i hi; exact absurd hi (List.not_mem_nil i)⟩

/-- C10 witness: the invariant holds for the fresh renderer and is
carried through a concrete single-glyph call. -/
theorem batch_invariant_preserved_witness :
    batchInv mkRenderer0 ∧ batchInv rOne :=
  ⟨by decide,
    batch_invariant_preserved.2.2.2.1 mkRenderer0 ['A'] (0, 0) testColor
      (by decide)⟩

end GfxDebugDraw
